import Mathlib

/-!
Verification of the multi-tenant asset manager backend.

Shallow embedding of the backend of this repository:
* `src/backend/src/controllers/assetController.js` (getAssets, createAsset,
  updateAsset, deleteAsset),
* `src/backend/src/middleware/auth.js` (authenticate),
* the authentication controller (login),
* the relational schema (global unique index on Asset.serialNumber).

JavaScript strings are Lean `String`s; optional request-body fields are
`Option String`, with JavaScript truthiness made explicit.  The persistence
engine is a state value (`DB`); each handler returns the HTTP response, the
final state and a trace of the storage operations it issued, in order.
-/

set_option autoImplicit false

namespace AssetManager

/-! ### JavaScript string semantics -/

/-- JavaScript truthiness of an optional string field: `undefined`, `null`
and `""` are falsy, every other string is truthy. -/
def truthy : Option String → Bool
  | none => false
  | some s => !s.data.isEmpty

/-- Whether a string is empty (`s.length === 0` in JavaScript). -/
def strEmpty (s : String) : Bool := s.data.isEmpty

/-- Drop leading whitespace characters from a character list. -/
def dropLeadingWs : List Char → List Char
  | [] => []
  | c :: rest => if c.isWhitespace then dropLeadingWs rest else c :: rest

/-- JavaScript `String.prototype.trim`: remove leading and trailing
whitespace. -/
def trimStr (s : String) : String :=
  ⟨(dropLeadingWs ((dropLeadingWs s.data).reverse)).reverse⟩

/-- JavaScript `String.prototype.split` with a single-character separator:
splits into the (possibly empty) segments between occurrences of `sep`. -/
def splitOnChar (sep : Char) : List Char → List (List Char)
  | [] => [[]]
  | c :: rest =>
    match splitOnChar sep rest with
    | [] => [[]]
    | first :: others =>
      if c = sep then [] :: first :: others else (c :: first) :: others

/-! ### Data model

From `schema.prisma` / the SQL setup in the repository: four tables with a
global unique index `Asset_serialNumber_key` on `Asset.serialNumber`. -/

structure Asset where
  id : String
  name : String
  serialNumber : String
  status : String
  organizationId : String
  categoryId : String
deriving DecidableEq, Repr

structure Category where
  id : String
  name : String
  organizationId : String
deriving DecidableEq, Repr

structure User where
  id : String
  email : String
  password : String
  organizationId : String
deriving DecidableEq, Repr

/-- The relational store, together with a counter that supplies fresh
primary keys for rows the handlers create. -/
structure DB where
  assets : List Asset
  categories : List Category
  nextId : Nat
deriving DecidableEq, Repr

/-- A fresh generated primary key. -/
def freshId (db : DB) : String := "gen" ++ toString db.nextId

/-- Authenticated request context injected by the auth middleware
(`req.user`). -/
structure Ctx where
  userId : String
  orgId : String
deriving DecidableEq, Repr

/-! ### Storage operations (the Prisma calls the handlers issue) -/

inductive StoreOp
  | assetFindManyByOrg (orgId : String)
  | assetFindUniqueBySerial (serialNumber : String)
  | assetFindUniqueById (id : String)
  | assetCreate (a : Asset)
  | assetUpdateMany (id orgId : String)
  | assetDeleteMany (id orgId : String)
  | categoryFindFirstByOrg (orgId : String)
  | categoryCreate (c : Category)
deriving DecidableEq, Repr

/-- Whether a storage operation touches Asset rows. -/
def opOnAssets : StoreOp → Bool
  | .assetFindManyByOrg _ => true
  | .assetFindUniqueBySerial _ => true
  | .assetFindUniqueById _ => true
  | .assetCreate _ => true
  | .assetUpdateMany _ _ => true
  | .assetDeleteMany _ _ => true
  | .categoryFindFirstByOrg _ => false
  | .categoryCreate _ => false

/-- Whether a storage operation mutates Asset rows. -/
def opMutatesAssets : StoreOp → Bool
  | .assetCreate _ => true
  | .assetUpdateMany _ _ => true
  | .assetDeleteMany _ _ => true
  | _ => false

/-- Whether the operation's `where` clause (or, for a create, its row data)
constrains the touched Asset rows to the given organization. -/
def opOrgScoped : StoreOp → String → Bool
  | .assetFindManyByOrg o, org => o == org
  | .assetFindUniqueBySerial _, _ => false
  | .assetFindUniqueById _, _ => false
  | .assetCreate a, org => a.organizationId == org
  | .assetUpdateMany _ o, org => o == org
  | .assetDeleteMany _ o, org => o == org
  | .categoryFindFirstByOrg _, _ => false
  | .categoryCreate _, _ => false

/-- Whether the operation addresses an Asset row by its own `id` alone. -/
def opAddressesAssetByIdAlone : StoreOp → Bool
  | .assetFindUniqueById _ => true
  | _ => false

/-- Whether the operation is a lookup of an Asset by serial number (the
duplicate pre-checks in create/update). -/
def opIsSerialLookup : StoreOp → Bool
  | .assetFindUniqueBySerial _ => true
  | _ => false

/-! ### HTTP responses -/

inductive RespBody
  | err (msg : String)
  | assetList (items : List (Asset × Option Category))
  | assetOnly (a : Asset)
  | updated (found : Option Asset) (category : Option Category)
  | message (msg : String)
  | loginOk (token : String) (email : String) (orgId : String)
deriving DecidableEq, Repr

structure Resp where
  status : Nat
  body : RespBody
deriving DecidableEq, Repr

/-! ### Asset resource handlers

Embedded from `src/backend/src/controllers/assetController.js`. -/

/-- The allowed values of `Asset.status` (`validStatuses` in the source). -/
def validStatuses : List String := ["active", "maintenance", "retired"]

/-- The interpolated enum-validation error message from the source. -/
def statusMustBeMsg : String := "Status must be one of: active, maintenance, retired"

/-- Whether a row matches `where: { id, organizationId }`. -/
def rowMatches (id orgId : String) (a : Asset) : Bool :=
  a.id == id && a.organizationId == orgId

/-- Whether some Asset row already carries this serial number (the global
unique index `Asset_serialNumber_key`). -/
def serialTaken (db : DB) (s : String) : Bool :=
  db.assets.any fun b => b.serialNumber == s

/-- `GET /api/assets` result items: the caller's assets with their
categories included. -/
def getAssetsItems (db : DB) (ctx : Ctx) : List (Asset × Option Category) :=
  (db.assets.filter fun a => a.organizationId == ctx.orgId).map
    fun a => (a, db.categories.find? fun c => c.id == a.categoryId)

/-- Handler for `GET /api/assets`. -/
def getAssets (db : DB) (ctx : Ctx) : Resp × DB × List StoreOp :=
  (⟨200, .assetList (getAssetsItems db ctx)⟩, db, [.assetFindManyByOrg ctx.orgId])

/-- The input-validation layers of `createAsset`, in source order; `some r`
is the early-returned 400 response. -/
def createValidationError (name serialNumber status : Option String) : Option Resp :=
  if !(truthy name) || !(truthy serialNumber) then
    some ⟨400, .err "Name and serial number are required"⟩
  else if strEmpty (trimStr (name.getD "")) || strEmpty (trimStr (serialNumber.getD "")) then
    some ⟨400, .err "Name and serial number cannot be empty"⟩
  else if truthy status && !(validStatuses.contains (status.getD "")) then
    some ⟨400, .err statusMustBeMsg⟩
  else
    none

/-- `createAsset`'s duplicate pre-check: a row with the (untrimmed) supplied
serial number exists and belongs to the caller's organization. -/
def createPrecheckConflict (db : DB) (orgId sn : String) : Bool :=
  match db.assets.find? (fun a => a.serialNumber == sn) with
  | some a => a.organizationId == orgId
  | none => false

/-- `status || 'active'` applied to the optional status field. -/
def statusOrActive (status : Option String) : String :=
  if truthy status then status.getD "" else "active"

/-- The insert step of `createAsset`: `prisma.asset.create` either violates
the global unique serial-number index (Prisma error P2002, mapped to 409 by
the catch block) or appends the new row. -/
def createWrite (db : DB) (ctx : Ctx) (n snT : String) (status : Option String)
    (catId : String) (tr : List StoreOp) : Resp × DB × List StoreOp :=
  let a : Asset :=
    ⟨freshId db, n, snT, statusOrActive status, ctx.orgId, catId⟩
  if serialTaken db snT then
    (⟨409, .err "Serial number already exists"⟩, db, tr ++ [.assetCreate a])
  else
    (⟨201, .assetOnly a⟩,
     { db with assets := db.assets ++ [a], nextId := db.nextId + 1 },
     tr ++ [.assetCreate a])

/-- Handler for `POST /api/assets`. -/
def createAsset (db : DB) (ctx : Ctx) (name serialNumber status : Option String) :
    Resp × DB × List StoreOp :=
  match createValidationError name serialNumber status with
  | some r => (r, db, [])
  | none =>
    let sn := serialNumber.getD ""
    if createPrecheckConflict db ctx.orgId sn then
      (⟨409, .err "Serial number already exists"⟩, db, [.assetFindUniqueBySerial sn])
    else
      let n := trimStr (name.getD "")
      let snT := trimStr sn
      match db.categories.find? (fun c => c.organizationId == ctx.orgId) with
      | some category =>
        createWrite db ctx n snT status category.id
          [.assetFindUniqueBySerial sn, .categoryFindFirstByOrg ctx.orgId]
      | none =>
        let category : Category := ⟨freshId db, "General", ctx.orgId⟩
        createWrite
          { db with categories := db.categories ++ [category], nextId := db.nextId + 1 }
          ctx n snT status category.id
          [.assetFindUniqueBySerial sn, .categoryFindFirstByOrg ctx.orgId,
           .categoryCreate category]

/-- Handler for `DELETE /api/assets/:id`. -/
def deleteAsset (db : DB) (ctx : Ctx) (id : String) : Resp × DB × List StoreOp :=
  if strEmpty id then
    (⟨400, .err "Asset ID is required"⟩, db, [])
  else if db.assets.all (fun a => !(rowMatches id ctx.orgId a)) then
    (⟨404, .err "Asset not found or unauthorized"⟩, db, [.assetDeleteMany id ctx.orgId])
  else
    (⟨200, .message "Asset deleted successfully"⟩,
     { db with assets := db.assets.filter fun a => !(rowMatches id ctx.orgId a) },
     [.assetDeleteMany id ctx.orgId])

/-- The input-validation layers of `updateAsset`, in source order. -/
def updateValidationError (id : String) (name serialNumber status : Option String) :
    Option Resp :=
  if strEmpty id then
    some ⟨400, .err "Asset ID is required"⟩
  else if !(truthy name) && !(truthy serialNumber) && !(truthy status) then
    some ⟨400, .err "At least one field (name, serialNumber, or status) is required"⟩
  else if truthy name && strEmpty (trimStr (name.getD "")) then
    some ⟨400, .err "Name cannot be empty"⟩
  else if truthy serialNumber && strEmpty (trimStr (serialNumber.getD "")) then
    some ⟨400, .err "Serial number cannot be empty"⟩
  else if truthy status && !(validStatuses.contains (status.getD "")) then
    some ⟨400, .err statusMustBeMsg⟩
  else
    none

/-- `updateAsset`'s duplicate pre-check: if a serial number is supplied, an
existing row with that (untrimmed) serial in the caller's organization and a
different id is a conflict. -/
def updatePrecheckConflict (db : DB) (orgId id : String) (serialNumber : Option String) :
    Bool :=
  truthy serialNumber &&
    match db.assets.find? (fun a => a.serialNumber == serialNumber.getD "") with
    | some a => a.organizationId == orgId && a.id != id
    | none => false

/-- The partial-update data object: only supplied (truthy) fields are
written, strings trimmed. -/
def applyUpdates (name serialNumber status : Option String) (a : Asset) : Asset :=
  { a with
    name := if truthy name then trimStr (name.getD "") else a.name
    serialNumber := if truthy serialNumber then trimStr (serialNumber.getD "") else a.serialNumber
    status := if truthy status then status.getD "" else a.status }

/-- Whether `prisma.asset.updateMany` would violate the global unique
serial-number index: some row matches `(id, orgId)` and receives a supplied
serial number that another, unmatched row already carries. -/
def updateWriteViolation (db : DB) (id orgId : String) (serialNumber : Option String) :
    Bool :=
  truthy serialNumber &&
    (db.assets.any fun a => rowMatches id orgId a) &&
    (db.assets.any fun b =>
      !(rowMatches id orgId b) && b.serialNumber == trimStr (serialNumber.getD ""))

/-- Handler for `PATCH /api/assets/:id`. -/
def updateAsset (db : DB) (ctx : Ctx) (id : String)
    (name serialNumber status : Option String) : Resp × DB × List StoreOp :=
  match updateValidationError id name serialNumber status with
  | some r => (r, db, [])
  | none =>
    let preTrace : List StoreOp :=
      if truthy serialNumber then [.assetFindUniqueBySerial (serialNumber.getD "")] else []
    if updatePrecheckConflict db ctx.orgId id serialNumber then
      (⟨409, .err "Serial number already exists"⟩, db, preTrace)
    else
      let tr := preTrace ++ [StoreOp.assetUpdateMany id ctx.orgId]
      if updateWriteViolation db id ctx.orgId serialNumber then
        (⟨409, .err "Serial number already exists"⟩, db, tr)
      else if db.assets.all (fun a => !(rowMatches id ctx.orgId a)) then
        (⟨404, .err "Asset not found or unauthorized"⟩, db, tr)
      else
        let db1 :=
          { db with assets := db.assets.map fun a =>
              if rowMatches id ctx.orgId a then applyUpdates name serialNumber status a
              else a }
        let found := db1.assets.find? fun a => a.id == id
        (⟨200, .updated found
            (found.bind fun a => db1.categories.find? fun c => c.id == a.categoryId)⟩,
         db1, tr ++ [.assetFindUniqueById id])

/-! ### Auth gate

Embedded from `src/backend/src/middleware/auth.js` (the module `server.js`
loads).  `jwt.verify` is an external primitive; the gate is parametric in a
verifier `vf : secret → token → Option Ctx`. -/

/-- Token extraction: `authHeader && authHeader.split(' ')[1]`, then the
`if (!token)` falsiness check. -/
def extractToken : Option String → Option String
  | none => none
  | some h =>
    match (splitOnChar ' ' h.data).get? 1 with
    | none => none
    | some t => if t.isEmpty then none else some ⟨t⟩

inductive GateResult
  | reject (r : Resp)
  | proceed (ctx : Ctx)
deriving DecidableEq, Repr

/-- The `authenticate` middleware: missing token → 401; missing
`JWT_SECRET` → 500; failed verification → 403; otherwise attach the decoded
context and continue. -/
def authenticate (secret : Option String) (vf : String → String → Option Ctx)
    (header : Option String) : GateResult :=
  match extractToken header with
  | none => .reject ⟨401, .err "Access denied: No token"⟩
  | some tok =>
    match secret with
    | none => .reject ⟨500, .err "Server configuration error"⟩
    | some s =>
      match vf s tok with
      | none => .reject ⟨403, .err "Invalid session"⟩
      | some c => .proceed c

/-- A protected route as wired in `server.js`: the middleware runs first;
the handler runs only when it calls `next()`. -/
def protectedCall (secret : Option String) (vf : String → String → Option Ctx)
    (header : Option String) (db : DB)
    (handler : Ctx → DB → Resp × DB × List StoreOp) : Resp × DB × List StoreOp :=
  match authenticate secret vf header with
  | .reject r => (r, db, [])
  | .proceed c => handler c db

/-! ### Login handler

Embedded from the authentication controller (`login`).  `bcrypt.compare`
and `jwt.sign` are external primitives, passed as `cmp` and `sign`. -/

/-- The character class of the email regex: any character other than
whitespace and the at sign. -/
def emailCharOk (c : Char) : Bool := !(c == '@' || c.isWhitespace)

/-- Some interior character of the list (neither first nor last) is a dot:
the `[^\s@]+\.[^\s@]+` tail of the email regex. -/
def hasInteriorDot : List Char → Bool
  | _ :: b :: c :: rest => (b == '.') || hasInteriorDot (b :: c :: rest)
  | _ => false

/-- The email shape test `^[^\s@]+@[^\s@]+\.[^\s@]+$` from the source. -/
def emailShapeOk (s : String) : Bool :=
  match splitOnChar '@' s.data with
  | [localPart, domain] =>
    !localPart.isEmpty && localPart.all emailCharOk &&
      !domain.isEmpty && domain.all emailCharOk && hasInteriorDot domain
  | _ => false

/-- The `login` handler: field presence, email shape, `JWT_SECRET` presence,
user lookup by email, digest comparison, then token issuance. -/
def login (users : List User) (cmp : String → String → Bool)
    (sign : String → String → String) (secret : Option String)
    (email password : Option String) : Resp :=
  if !(truthy email) || !(truthy password) then
    ⟨400, .err "Email and password are required"⟩
  else if !(emailShapeOk (email.getD "")) then
    ⟨400, .err "Invalid email format"⟩
  else
    match secret with
    | none => ⟨500, .err "Server configuration error"⟩
    | some _ =>
      match users.find? (fun u => u.email == email.getD "") with
      | none => ⟨401, .err "Invalid credentials"⟩
      | some u =>
        if !(cmp (password.getD "") u.password) then
          ⟨401, .err "Invalid credentials"⟩
        else
          ⟨200, .loginOk (sign u.id u.organizationId) u.email u.organizationId⟩

/-! ### Token service

Modelled from the spec: the signing/verification primitive (`jsonwebtoken`)
is not part of this repository — the spec consumes it as an opaque
capability (`sign(claims) -> token`, `verify(token) -> claims | fail`) that
validates signature and expiration and detects any mutation of the token.
The model signs a fixed-width binary payload `{userId, orgId, exp}` with a
keystream derived from the shared secret; the 24-hour expiry window comes
from the source (`expiresIn: '24h'`). -/

/-- Fixed claim width in bits. -/
def tokenWidth : Nat := 64

/-- Seconds in the 24-hour expiry window. -/
def expirySeconds : Nat := 86400

/-- Little-endian fixed-width binary encoding of a natural number. -/
def natBits : Nat → Nat → List Bool
  | 0, _ => []
  | w + 1, x => (x % 2 == 1) :: natBits w (x / 2)

/-- Decoding of a little-endian bit list. -/
def bitsNat : List Bool → Nat
  | [] => 0
  | b :: bs => (cond b 1 0) + 2 * bitsNat bs

/-- The secret-derived keystream of a given length. -/
def keystream (secret : Nat) (n : Nat) : List Bool :=
  (List.range n).map secret.testBit

/-- The signature of a payload under the shared secret. -/
def signBits (secret : Nat) (payload : List Bool) : List Bool :=
  List.zipWith xor payload (keystream secret payload.length)

/-- `issue(userId, orgId)` at time `now`: payload plus signature. -/
def issueToken (secret : Nat) (userId orgId : Nat) (now : Nat) : List Bool :=
  let payload :=
    natBits tokenWidth userId ++ natBits tokenWidth orgId ++
      natBits tokenWidth (now + expirySeconds)
  payload ++ signBits secret payload

inductive VerifyResult
  | valid (userId orgId : Nat)
  | invalid
deriving DecidableEq, Repr

/-- `verify(token)` at time `now`: checks shape, signature and expiry;
returns the embedded claims or `invalid`. -/
def verifyToken (secret : Nat) (now : Nat) (token : List Bool) : VerifyResult :=
  if token.length == 2 * (3 * tokenWidth) then
    if token.drop (3 * tokenWidth) == signBits secret (token.take (3 * tokenWidth)) then
      if now < bitsNat ((token.take (3 * tokenWidth)).drop (2 * tokenWidth)) then
        .valid (bitsNat ((token.take (3 * tokenWidth)).take tokenWidth))
          (bitsNat (((token.take (3 * tokenWidth)).drop tokenWidth).take tokenWidth))
      else .invalid
    else .invalid
  else .invalid

/-- A single-bit mutation of a token. -/
def flipBit : List Bool → Nat → List Bool
  | [], _ => []
  | b :: bs, 0 => (!b) :: bs
  | b :: bs, i + 1 => b :: flipBit bs i

/-! ### Concrete fixtures used by witnesses and counterexamples -/

/-- A store holding one asset of organization `org1`. -/
def dbW : DB :=
  ⟨[⟨"a1", "Laptop", "SN-1", "active", "org1", "cat1"⟩],
   [⟨"cat1", "Hardware", "org1"⟩], 0⟩

def ctxOrg1 : Ctx := ⟨"u1", "org1"⟩

def ctxOrg2 : Ctx := ⟨"u2", "org2"⟩

/-- A token verifier that rejects every token (for instance, one whose
tokens have all expired). -/
def rejectAllVerifier : String → String → Option Ctx := fun _ _ => none

/-! ### Basic helper lemmas -/

theorem truthy_none : truthy none = false := rfl

theorem truthy_maintenance : truthy (some "maintenance") = true := by decide

theorem truthy_some_empty : truthy (some "") = false := by decide

theorem strEmpty_eq_false_of_ne {s : String} (h : s ≠ "") : strEmpty s = false := by
  rcases s with ⟨l⟩
  cases l with
  | nil => exact absurd rfl h
  | cons c cs => rfl

/-! ### C10 -/

/-- C10: in `createAsset` and `updateAsset` a field supplied with a falsy
value is treated as absent rather than invalid: `createAsset` behaves
identically on `status: ""` and on an absent status (so the empty string
passes the enum validation and the stored status is `"active"`), and an
update body whose supplied fields are all falsy (for example only
`name: ""`) is rejected with 400 as having zero fields to update. -/
theorem c10_falsy_fields_treated_as_absent :
    (∀ (db : DB) (ctx : Ctx) (nm sn : Option String),
        createAsset db ctx nm sn (some "") = createAsset db ctx nm sn none) ∧
    statusOrActive (some "") = "active" ∧
    truthy (some "") = false ∧
    (∀ (db : DB) (ctx : Ctx) (id : String), id ≠ "" →
        updateAsset db ctx id (some "") none none =
          (⟨400, .err "At least one field (name, serialNumber, or status) is required"⟩,
           db, [])) := by
  refine ⟨?_, by decide, by decide, ?_⟩
  · intro db ctx nm sn
    have hval : createValidationError nm sn (some "") = createValidationError nm sn none := by
      simp [createValidationError, truthy_some_empty, truthy_none]
    have hst : statusOrActive (some "") = statusOrActive none := by decide
    unfold createAsset createWrite
    rw [hval, hst]
  · intro db ctx id hid
    have hval : updateValidationError id (some "") none none =
        some ⟨400, .err "At least one field (name, serialNumber, or status) is required"⟩ := by
      unfold updateValidationError
      rw [strEmpty_eq_false_of_ne hid]
      simp [truthy_some_empty, truthy_none]
    unfold updateAsset
    rw [hval]

/-- C10 witness: concrete instances of the quantified parts. -/
theorem c10_falsy_fields_treated_as_absent_witness :
    createAsset dbW ctxOrg2 (some "X") (some "S") (some "") =
      createAsset dbW ctxOrg2 (some "X") (some "S") none ∧
    ("a1" : String) ≠ "" ∧
    updateAsset dbW ctxOrg1 "a1" (some "") none none =
      (⟨400, .err "At least one field (name, serialNumber, or status) is required"⟩,
       dbW, []) :=
  ⟨c10_falsy_fields_treated_as_absent.1 dbW ctxOrg2 (some "X") (some "S"),
   by decide,
   c10_falsy_fields_treated_as_absent.2.2.2 dbW ctxOrg1 "a1" (by decide)⟩

/-! ### C7 -/

/-- C7: login with an unknown email and login with a known email plus a
wrong password both return status 401 with the identical error body
`"Invalid credentials"`, so the two failure causes are indistinguishable to
the caller. -/
theorem c7_generic_login_failure (users : List User) (cmp : String → String → Bool)
    (sign : String → String → String) (sec : String) (e1 p1 e2 p2 : Option String)
    (u : User)
    (he1 : truthy e1 = true) (hp1 : truthy p1 = true)
    (hs1 : emailShapeOk (e1.getD "") = true)
    (hu1 : users.find? (fun v => v.email == e1.getD "") = none)
    (he2 : truthy e2 = true) (hp2 : truthy p2 = true)
    (hs2 : emailShapeOk (e2.getD "") = true)
    (hu2 : users.find? (fun v => v.email == e2.getD "") = some u)
    (hcmp : cmp (p2.getD "") u.password = false) :
    login users cmp sign (some sec) e1 p1 = ⟨401, .err "Invalid credentials"⟩ ∧
    login users cmp sign (some sec) e2 p2 = ⟨401, .err "Invalid credentials"⟩ ∧
    login users cmp sign (some sec) e1 p1 = login users cmp sign (some sec) e2 p2 := by
  have h1 : login users cmp sign (some sec) e1 p1 = ⟨401, .err "Invalid credentials"⟩ := by
    unfold login
    rw [he1, hp1, hs1, hu1]
    simp
  have h2 : login users cmp sign (some sec) e2 p2 = ⟨401, .err "Invalid credentials"⟩ := by
    unfold login
    rw [he2, hp2, hs2, hu2]
    simp [hcmp]
  exact ⟨h1, h2, h1.trans h2.symm⟩

/-- C7 witness: one user store, an unknown email and a wrong password. -/
theorem c7_generic_login_failure_witness :
    truthy (some "ghost@acme.com") = true ∧
    emailShapeOk "ghost@acme.com" = true ∧
    [(⟨"u1", "admin@acme.com", "digest1", "org1"⟩ : User)].find?
        (fun v => v.email == "ghost@acme.com") = none ∧
    [(⟨"u1", "admin@acme.com", "digest1", "org1"⟩ : User)].find?
        (fun v => v.email == "admin@acme.com") =
      some ⟨"u1", "admin@acme.com", "digest1", "org1"⟩ ∧
    login [⟨"u1", "admin@acme.com", "digest1", "org1"⟩] (fun a b => a == b)
        (fun _ _ => "tok") (some "k") (some "ghost@acme.com") (some "pw") =
      ⟨401, .err "Invalid credentials"⟩ ∧
    login [⟨"u1", "admin@acme.com", "digest1", "org1"⟩] (fun a b => a == b)
        (fun _ _ => "tok") (some "k") (some "admin@acme.com") (some "wrong") =
      ⟨401, .err "Invalid credentials"⟩ := by
  refine ⟨by decide, by decide, by decide, by decide, ?_, ?_⟩
  · exact (c7_generic_login_failure [⟨"u1", "admin@acme.com", "digest1", "org1"⟩]
      (fun a b => a == b) (fun _ _ => "tok") "k"
      (some "ghost@acme.com") (some "pw") (some "admin@acme.com") (some "wrong")
      ⟨"u1", "admin@acme.com", "digest1", "org1"⟩
      (by decide) (by decide) (by decide) (by decide)
      (by decide) (by decide) (by decide) (by decide) (by decide)).1
  · exact (c7_generic_login_failure [⟨"u1", "admin@acme.com", "digest1", "org1"⟩]
      (fun a b => a == b) (fun _ _ => "tok") "k"
      (some "ghost@acme.com") (some "pw") (some "admin@acme.com") (some "wrong")
      ⟨"u1", "admin@acme.com", "digest1", "org1"⟩
      (by decide) (by decide) (by decide) (by decide)
      (by decide) (by decide) (by decide) (by decide) (by decide)).2.1

/-! ### C5 -/

/-- C5: without a configured signing secret, every token operation fails
with the configuration error: the auth gate returns 500 whenever a token is
present, never proceeds to a handler, and `login` returns 500 on every
well-formed credential pair and never issues a token (status 200 is
unreachable).  There is no fallback secret. -/
theorem c5_missing_secret_is_config_error :
    (∀ (vf : String → String → Option Ctx) (h : Option String) (t : String),
        extractToken h = some t →
        authenticate none vf h = .reject ⟨500, .err "Server configuration error"⟩) ∧
    (∀ (vf : String → String → Option Ctx) (h : Option String) (c : Ctx),
        authenticate none vf h ≠ .proceed c) ∧
    (∀ (users : List User) (cmp : String → String → Bool)
        (sign : String → String → String) (e p : Option String),
        truthy e = true → truthy p = true → emailShapeOk (e.getD "") = true →
        login users cmp sign none e p = ⟨500, .err "Server configuration error"⟩) ∧
    (∀ (users : List User) (cmp : String → String → Bool)
        (sign : String → String → String) (e p : Option String),
        (login users cmp sign none e p).status ≠ 200) := by
  refine ⟨?_, ?_, ?_, ?_⟩
  · intro vf h t ht
    unfold authenticate
    rw [ht]
  · intro vf h c
    unfold authenticate
    cases hx : extractToken h <;> simp
  · intro users cmp sign e p he hp hs
    unfold login
    rw [he, hp, hs]
    simp
  · intro users cmp sign e p
    unfold login
    split
    · simp [Resp.status]
    · split
      · simp [Resp.status]
      · simp [Resp.status]

/-- C5 witness: concrete instances. -/
theorem c5_missing_secret_is_config_error_witness :
    extractToken (some "Bearer sometoken") = some "sometoken" ∧
    authenticate none rejectAllVerifier (some "Bearer sometoken") =
      .reject ⟨500, .err "Server configuration error"⟩ ∧
    truthy (some "admin@acme.com") = true ∧
    login [] (fun a b => a == b) (fun _ _ => "tok") none
        (some "admin@acme.com") (some "pw") =
      ⟨500, .err "Server configuration error"⟩ :=
  ⟨by decide,
   c5_missing_secret_is_config_error.1 rejectAllVerifier (some "Bearer sometoken")
     "sometoken" (by decide),
   by decide,
   c5_missing_secret_is_config_error.2.2.1 [] (fun a b => a == b) (fun _ _ => "tok")
     (some "admin@acme.com") (some "pw") (by decide) (by decide) (by decide)⟩

/-! ### C4 -/

/-- C4 counterexample: an Authorization header that lacks the `Bearer`
prefix is NOT treated like a missing token.  `"Basic xyz"` has its second
space-separated segment `"xyz"` extracted as the token, so a verifier that
rejects it produces 403 (Forbidden), while a missing header produces 401 —
the two outcomes differ, refuting the claim's last clause. -/
theorem c4_counterexample :
    authenticate (some "k") rejectAllVerifier (some "Basic xyz") =
      .reject ⟨403, .err "Invalid session"⟩ ∧
    authenticate (some "k") rejectAllVerifier none =
      .reject ⟨401, .err "Access denied: No token"⟩ ∧
    authenticate (some "k") rejectAllVerifier (some "Basic xyz") ≠
      authenticate (some "k") rejectAllVerifier none := by decide

/-- C4 (amended): the Auth Gate rejects a request with no extractable token
(no header, or a header without a nonempty second space-separated segment)
with 401 before any handler runs; a present-but-invalid token is rejected
with 403; but a header lacking the `Bearer` prefix is treated as a missing
token only when it has no second segment — otherwise the second segment is
used as the token, and is even accepted when it verifies. -/
theorem c4_auth_gate_amended :
    (∀ (secret : Option String) (vf : String → String → Option Ctx) (db : DB)
        (handler : Ctx → DB → Resp × DB × List StoreOp),
        protectedCall secret vf none db handler =
          (⟨401, .err "Access denied: No token"⟩, db, [])) ∧
    (∀ (secret : Option String) (vf : String → String → Option Ctx) (h : String)
        (db : DB) (handler : Ctx → DB → Resp × DB × List StoreOp),
        extractToken (some h) = none →
        protectedCall secret vf (some h) db handler =
          (⟨401, .err "Access denied: No token"⟩, db, [])) ∧
    (∀ (s : String) (vf : String → String → Option Ctx) (h t : String) (db : DB)
        (handler : Ctx → DB → Resp × DB × List StoreOp),
        extractToken (some h) = some t → vf s t = none →
        protectedCall (some s) vf (some h) db handler =
          (⟨403, .err "Invalid session"⟩, db, [])) ∧
    (∀ (s : String) (vf : String → String → Option Ctx) (h t : String) (c : Ctx)
        (db : DB) (handler : Ctx → DB → Resp × DB × List StoreOp),
        extractToken (some h) = some t → vf s t = some c →
        protectedCall (some s) vf (some h) db handler = handler c db) := by
  refine ⟨?_, ?_, ?_, ?_⟩
  · intro secret vf db handler
    rfl
  · intro secret vf h db handler hx
    unfold protectedCall authenticate
    rw [hx]
  · intro s vf h t db handler hx hv
    unfold protectedCall authenticate
    rw [hx]
    simp [hv]
  · intro s vf h t c db handler hx hv
    unfold protectedCall authenticate
    rw [hx]
    simp [hv]

/-- C4 witness: concrete instances of the amended behaviour, including the
non-`Bearer` header whose second segment is taken as the token. -/
theorem c4_auth_gate_amended_witness :
    protectedCall (some "k") rejectAllVerifier none dbW (fun c db => getAssets db c) =
      (⟨401, .err "Access denied: No token"⟩, dbW, []) ∧
    extractToken (some "tokenonly") = none ∧
    protectedCall (some "k") rejectAllVerifier (some "tokenonly") dbW (fun c db => getAssets db c) =
      (⟨401, .err "Access denied: No token"⟩, dbW, []) ∧
    extractToken (some "Basic xyz") = some "xyz" ∧
    rejectAllVerifier "k" "xyz" = none ∧
    protectedCall (some "k") rejectAllVerifier (some "Basic xyz") dbW (fun c db => getAssets db c) =
      (⟨403, .err "Invalid session"⟩, dbW, []) :=
  ⟨c4_auth_gate_amended.1 (some "k") rejectAllVerifier dbW (fun c db => getAssets db c),
   by decide,
   c4_auth_gate_amended.2.1 (some "k") rejectAllVerifier "tokenonly" dbW (fun c db => getAssets db c)
     (by decide),
   by decide, by decide,
   c4_auth_gate_amended.2.2.1 "k" rejectAllVerifier "Basic xyz" "xyz" dbW (fun c db => getAssets db c)
     (by decide) (by decide)⟩

/-! ### C3 -/

/-- C3: the failing input evaluated.  `dbW` holds org1's asset with serial
`SN-1`; a caller authenticated into org2 creates an asset with the same
serial number.  The application-level pre-check passes (the duplicate is in
a different organization), but the global unique index
`Asset_serialNumber_key` raises a uniqueness violation at the insert, which
the handler maps to 409 — not the 201 the spec's scenario promises.  The
lazily created `General` category for org2 persists; no asset row is
created. -/
theorem c3_cross_tenant_create_hits_global_constraint :
    createValidationError (some "Laptop B") (some "SN-1") none = none ∧
    createPrecheckConflict dbW "org2" "SN-1" = false ∧
    serialTaken dbW "SN-1" = true ∧
    createAsset dbW ctxOrg2 (some "Laptop B") (some "SN-1") none =
      (⟨409, .err "Serial number already exists"⟩,
       ⟨dbW.assets, dbW.categories ++ [⟨"gen0", "General", "org2"⟩], 1⟩,
       [.assetFindUniqueBySerial "SN-1", .categoryFindFirstByOrg "org2",
        .categoryCreate ⟨"gen0", "General", "org2"⟩,
        .assetCreate ⟨"gen1", "Laptop B", "SN-1", "active", "org2", "gen0"⟩]) := by
  decide

/-! ### C2 -/

/-- The per-operation discipline the amended C2 states: every Asset
mutation is org-scoped, and every Asset operation is org-scoped unless it
is one of the two documented exceptions (the serial-number duplicate
pre-check, and `updateAsset`'s post-update re-read by id). -/
def opScopingOk (org : String) (op : StoreOp) : Bool :=
  (!(opMutatesAssets op) || opOrgScoped op org) &&
    (!(opOnAssets op) ||
      (opOrgScoped op org || opIsSerialLookup op || opAddressesAssetByIdAlone op))

/-- C2 counterexample: a successful update issues
`prisma.asset.findUnique({ where: { id } })` to re-read the updated row — a
storage query against Asset rows that is not filtered by the caller's
`orgId` and addresses the row by its own id alone, refuting the claim. -/
theorem c2_counterexample :
    ¬ (∀ op ∈ (updateAsset dbW ctxOrg1 "a1" none none (some "maintenance")).2.2,
        opOnAssets op = true →
          opOrgScoped op "org1" = true ∧ opAddressesAssetByIdAlone op = false) := by
  decide

/-- A `createWrite` call appends exactly the attempted insert to the
trace, whether or not the unique index rejects it. -/
theorem createWrite_trace (db : DB) (ctx : Ctx) (n snT : String)
    (status : Option String) (catId : String) (tr : List StoreOp) :
    (createWrite db ctx n snT status catId tr).2.2 =
      tr ++ [.assetCreate ⟨freshId db, n, snT, statusOrActive status, ctx.orgId, catId⟩] := by
  unfold createWrite
  split <;> rfl

/-- C2 (amended): in every trace of the four Asset handlers, every Asset
mutation is filtered by (or, for an insert, carries) the caller's `orgId`;
the only Asset operations not so filtered are the serial-number duplicate
pre-checks of create/update and `updateAsset`'s post-update re-read by id. -/
theorem c2_amended_org_scoping (db : DB) (ctx : Ctx) (id : String)
    (nm sn st : Option String) :
    (∀ op ∈ (getAssets db ctx).2.2, opScopingOk ctx.orgId op = true) ∧
    (∀ op ∈ (createAsset db ctx nm sn st).2.2, opScopingOk ctx.orgId op = true) ∧
    (∀ op ∈ (updateAsset db ctx id nm sn st).2.2, opScopingOk ctx.orgId op = true) ∧
    (∀ op ∈ (deleteAsset db ctx id).2.2, opScopingOk ctx.orgId op = true) := by
  refine ⟨?_, ?_, ?_, ?_⟩
  · intro op hop
    simp only [getAssets, List.mem_singleton] at hop
    subst hop
    simp [opScopingOk, opOnAssets, opMutatesAssets, opOrgScoped]
  · intro op hop
    unfold createAsset at hop
    cases hval : createValidationError nm sn st with
    | some r =>
      rw [hval] at hop
      simp at hop
    | none =>
      rw [hval] at hop
      simp only at hop
      repeat'
        first
          | split at hop
          | rw [createWrite_trace] at hop
      all_goals
        simp only [List.mem_append, List.mem_cons, List.mem_singleton,
          List.not_mem_nil, or_false, false_or] at hop
      all_goals try casesm* _ ∨ _
      all_goals subst_vars
      all_goals
        simp [opScopingOk, opMutatesAssets, opOnAssets, opOrgScoped,
          opIsSerialLookup, opAddressesAssetByIdAlone]
  · intro op hop
    unfold updateAsset at hop
    cases hval : updateValidationError id nm sn st with
    | some r =>
      rw [hval] at hop
      simp at hop
    | none =>
      rw [hval] at hop
      simp only at hop
      repeat' split at hop
      all_goals
        simp only [List.mem_append, List.mem_cons, List.mem_singleton,
          List.not_mem_nil, or_false, false_or] at hop
      all_goals try casesm* _ ∨ _
      all_goals subst_vars
      all_goals
        simp [opScopingOk, opMutatesAssets, opOnAssets, opOrgScoped,
          opIsSerialLookup, opAddressesAssetByIdAlone]
  · intro op hop
    unfold deleteAsset at hop
    repeat' split at hop
    all_goals
      simp only [List.mem_singleton, List.not_mem_nil] at hop
    all_goals subst_vars
    all_goals
      simp [opScopingOk, opMutatesAssets, opOnAssets, opOrgScoped]

/-- C2 amended witness: the org-scoped `updateMany` of a concrete update
trace satisfies the discipline. -/
theorem c2_amended_org_scoping_witness :
    StoreOp.assetUpdateMany "a1" "org1" ∈
        (updateAsset dbW ctxOrg1 "a1" none none (some "maintenance")).2.2 ∧
    opScopingOk "org1" (.assetUpdateMany "a1" "org1") = true :=
  ⟨by decide,
   (c2_amended_org_scoping dbW ctxOrg1 "a1" none none (some "maintenance")).2.2.1
     (.assetUpdateMany "a1" "org1") (by decide)⟩

/-! ### C8 -/

/-- Every early-returned validation response of `createAsset` has
status 400. -/
theorem createValidationError_status {nm sn st : Option String} {r : Resp}
    (h : createValidationError nm sn st = some r) : r.status = 400 := by
  unfold createValidationError at h
  repeat' split at h
  all_goals first
    | (simp only [Option.some.injEq] at h; subst h; rfl)
    | exact absurd h (by simp)

/-- Every early-returned validation response of `updateAsset` has
status 400. -/
theorem updateValidationError_status {id : String} {nm sn st : Option String} {r : Resp}
    (h : updateValidationError id nm sn st = some r) : r.status = 400 := by
  unfold updateValidationError at h
  repeat' split at h
  all_goals first
    | (simp only [Option.some.injEq] at h; subst h; rfl)
    | exact absurd h (by simp)

/-- C8: a storage uniqueness violation raised during Create or Update —
including one reached although the application-level pre-check passed — is
mapped to Conflict (409); neither handler can return Internal (500): the
`error.code === 'P2002'` catch branches fire on every uniqueness
violation. -/
theorem c8_unique_violation_maps_to_conflict (db : DB) (ctx : Ctx) (id : String)
    (nm sn st : Option String) :
    (createAsset db ctx nm sn st).1.status ≠ 500 ∧
    (updateAsset db ctx id nm sn st).1.status ≠ 500 ∧
    (createValidationError nm sn st = none →
      createPrecheckConflict db ctx.orgId (sn.getD "") = false →
      serialTaken db (trimStr (sn.getD "")) = true →
      (createAsset db ctx nm sn st).1 = ⟨409, .err "Serial number already exists"⟩) ∧
    (updateValidationError id nm sn st = none →
      updatePrecheckConflict db ctx.orgId id sn = false →
      updateWriteViolation db id ctx.orgId sn = true →
      (updateAsset db ctx id nm sn st).1 = ⟨409, .err "Serial number already exists"⟩) := by
  refine ⟨?_, ?_, ?_, ?_⟩
  · unfold createAsset
    cases hval : createValidationError nm sn st with
    | some r =>
      have h400 := createValidationError_status hval
      simp [h400]
    | none =>
      simp only
      split
      · simp
      · split <;> (unfold createWrite; split <;> simp)
  · unfold updateAsset
    cases hval : updateValidationError id nm sn st with
    | some r =>
      have h400 := updateValidationError_status hval
      simp [h400]
    | none =>
      simp only
      split
      · simp
      · split
        · simp
        · split <;> simp
  · intro hval hpc hst
    unfold createAsset
    rw [hval]
    simp only [hpc]
    have hst2 : (db.assets.any fun b => b.serialNumber == trimStr (sn.getD "")) = true := hst
    split
    · rfl
    · split <;> (unfold createWrite serialTaken; simp [hst2])
  · intro hval hpc hviol
    unfold updateAsset
    rw [hval]
    simp only [hpc, hviol]
    simp

/-- C8 witness: a create whose pre-check passes (the lookup uses the
untrimmed serial `" SN-1 "`) but whose trimmed insert collides with the
existing row, yielding 409. -/
theorem c8_unique_violation_maps_to_conflict_witness :
    createValidationError (some "Laptop B") (some " SN-1 ") none = none ∧
    createPrecheckConflict dbW "org1" " SN-1 " = false ∧
    serialTaken dbW (trimStr " SN-1 ") = true ∧
    (createAsset dbW ctxOrg1 (some "Laptop B") (some " SN-1 ") none).1 =
      ⟨409, .err "Serial number already exists"⟩ ∧
    (createAsset dbW ctxOrg1 (some "Laptop B") (some " SN-1 ") none).1.status ≠ 500 :=
  ⟨by decide, by decide, by decide,
   (c8_unique_violation_maps_to_conflict dbW ctxOrg1 "a1" (some "Laptop B")
       (some " SN-1 ") none).2.2.1 (by decide) (by decide) (by decide),
   (c8_unique_violation_maps_to_conflict dbW ctxOrg1 "a1" (some "Laptop B")
       (some " SN-1 ") none).1⟩

/-! ### C1 -/

/-- Among rows with unique ids, no row at all matches the `(id, orgId)`
pair formed from another organization's asset id and the caller's org. -/
theorem no_row_matches (db : DB) (orgId : String) (a : Asset)
    (hnd : (db.assets.map Asset.id).Nodup) (ha : a ∈ db.assets)
    (horg : a.organizationId ≠ orgId) :
    (db.assets.all fun b => !(rowMatches a.id orgId b)) = true := by
  rw [List.all_eq_true]
  intro b hb
  rw [Bool.not_eq_true']
  unfold rowMatches
  cases hid : b.id == a.id with
  | false => simp [hid]
  | true =>
    have hba : b = a := List.inj_on_of_nodup_map hnd hb ha (eq_of_beq hid)
    subst hba
    rw [beq_eq_false_iff_ne.mpr horg]
    simp

/-- The `any` form of `no_row_matches`. -/
theorem no_row_matches_any (db : DB) (orgId : String) (a : Asset)
    (hnd : (db.assets.map Asset.id).Nodup) (ha : a ∈ db.assets)
    (horg : a.organizationId ≠ orgId) :
    (db.assets.any fun b => rowMatches a.id orgId b) = false := by
  cases hany : (db.assets.any fun b => rowMatches a.id orgId b) with
  | false => rfl
  | true =>
    exfalso
    rw [List.any_eq_true] at hany
    obtain ⟨b, hb, hpb⟩ := hany
    have hall := (List.all_eq_true.mp (no_row_matches db orgId a hnd ha horg)) b hb
    rw [hpb] at hall
    simp at hall

/-- C1: tenant isolation.  For an asset `a` owned by a different
organization than the caller's: List returns only the caller's assets and
never `a`; Delete addressed at `a.id` returns 404 and leaves the store
unchanged; Update addressed at `a.id` leaves the store unchanged for every
body, never succeeds, and returns 404 whenever the body passes validation
and the caller-side duplicate pre-check. -/
theorem c1_tenant_isolation (db : DB) (ctx : Ctx) (a : Asset)
    (hnd : (db.assets.map Asset.id).Nodup) (ha : a ∈ db.assets)
    (horg : a.organizationId ≠ ctx.orgId) (hid : a.id ≠ "") :
    (∀ p ∈ getAssetsItems db ctx, p.1.organizationId = ctx.orgId ∧ p.1 ≠ a) ∧
    deleteAsset db ctx a.id =
      (⟨404, .err "Asset not found or unauthorized"⟩, db,
       [.assetDeleteMany a.id ctx.orgId]) ∧
    (∀ nm sn st : Option String,
      (updateAsset db ctx a.id nm sn st).2.1 = db ∧
      (updateAsset db ctx a.id nm sn st).1.status ≠ 200 ∧
      (updateValidationError a.id nm sn st = none →
        updatePrecheckConflict db ctx.orgId a.id sn = false →
        updateAsset db ctx a.id nm sn st =
          (⟨404, .err "Asset not found or unauthorized"⟩, db,
           (if truthy sn then [.assetFindUniqueBySerial (sn.getD "")] else []) ++
             [.assetUpdateMany a.id ctx.orgId]))) := by
  have hall := no_row_matches db ctx.orgId a hnd ha horg
  have hany := no_row_matches_any db ctx.orgId a hnd ha horg
  refine ⟨?_, ?_, ?_⟩
  · intro p hp
    unfold getAssetsItems at hp
    rw [List.mem_map] at hp
    obtain ⟨x, hx, hpx⟩ := hp
    rw [List.mem_filter] at hx
    have hxorg : x.organizationId = ctx.orgId := eq_of_beq hx.2
    subst hpx
    refine ⟨hxorg, ?_⟩
    intro hxa
    subst hxa
    exact horg hxorg
  · unfold deleteAsset
    rw [strEmpty_eq_false_of_ne hid, hall]
    simp
  · intro nm sn st
    have hviol : updateWriteViolation db a.id ctx.orgId sn = false := by
      unfold updateWriteViolation
      rw [hany]
      simp
    cases hval : updateValidationError a.id nm sn st with
    | some r =>
      have h400 := updateValidationError_status hval
      refine ⟨?_, ?_, ?_⟩
      · unfold updateAsset
        rw [hval]
      · unfold updateAsset
        rw [hval]
        simp [h400]
      · intro hcontra
        exact absurd hcontra (by simp)
    | none =>
      have hred : updateAsset db ctx a.id nm sn st =
          if updatePrecheckConflict db ctx.orgId a.id sn then
            (⟨409, .err "Serial number already exists"⟩, db,
             if truthy sn then [.assetFindUniqueBySerial (sn.getD "")] else [])
          else
            (⟨404, .err "Asset not found or unauthorized"⟩, db,
             (if truthy sn then [.assetFindUniqueBySerial (sn.getD "")] else []) ++
               [.assetUpdateMany a.id ctx.orgId]) := by
        unfold updateAsset
        rw [hval]
        simp only [hviol, hall]
        split
        · rfl
        · simp
      rw [hred]
      refine ⟨?_, ?_, ?_⟩
      · split <;> rfl
      · split <;> simp
      · intro _ hpc
        rw [hpc]
        simp

/-- C1 witness: the concrete store `dbW` (org1's asset `a1`) against an
org2 caller. -/
theorem c1_tenant_isolation_witness :
    ((dbW.assets.map Asset.id).Nodup ∧
      (⟨"a1", "Laptop", "SN-1", "active", "org1", "cat1"⟩ : Asset) ∈ dbW.assets ∧
      ("org1" : String) ≠ "org2" ∧ ("a1" : String) ≠ "") ∧
    (∀ p ∈ getAssetsItems dbW ctxOrg2,
      p.1.organizationId = ctxOrg2.orgId ∧
        p.1 ≠ ⟨"a1", "Laptop", "SN-1", "active", "org1", "cat1"⟩) ∧
    deleteAsset dbW ctxOrg2 "a1" =
      (⟨404, .err "Asset not found or unauthorized"⟩, dbW,
       [.assetDeleteMany "a1" "org2"]) :=
  ⟨⟨by decide, by decide, by decide, by decide⟩,
   (c1_tenant_isolation dbW ctxOrg2 ⟨"a1", "Laptop", "SN-1", "active", "org1", "cat1"⟩
      (by decide) (by decide) (by decide) (by decide)).1,
   (c1_tenant_isolation dbW ctxOrg2 ⟨"a1", "Laptop", "SN-1", "active", "org1", "cat1"⟩
      (by decide) (by decide) (by decide) (by decide)).2.1⟩

/-! ### C9 -/

/-- C9: a partial update supplying only `{status: "maintenance"}` to an
asset of the caller's organization succeeds (200) and rewrites exactly that
asset's status, leaving `name`, `serialNumber`, `organizationId` and
`categoryId` of every row unchanged; and in general `applyUpdates` writes
exactly the supplied subset of fields and no others. -/
theorem c9_partial_update_frame (db : DB) (ctx : Ctx) (a : Asset)
    (hnd : (db.assets.map Asset.id).Nodup) (ha : a ∈ db.assets)
    (horg : a.organizationId = ctx.orgId) (hid : a.id ≠ "") :
    (updateAsset db ctx a.id none none (some "maintenance")).1.status = 200 ∧
    (updateAsset db ctx a.id none none (some "maintenance")).2.1.assets =
      db.assets.map
        (fun x => if x.id == a.id then { x with status := "maintenance" } else x) ∧
    ({ a with status := "maintenance" } : Asset) ∈
      (updateAsset db ctx a.id none none (some "maintenance")).2.1.assets ∧
    (∀ (x : Asset) (nm sn st : Option String),
      (applyUpdates nm sn st x).id = x.id ∧
      (applyUpdates nm sn st x).organizationId = x.organizationId ∧
      (applyUpdates nm sn st x).categoryId = x.categoryId ∧
      (truthy nm = false → (applyUpdates nm sn st x).name = x.name) ∧
      (truthy sn = false → (applyUpdates nm sn st x).serialNumber = x.serialNumber) ∧
      (truthy st = false → (applyUpdates nm sn st x).status = x.status)) := by
  have hval : updateValidationError a.id none none (some "maintenance") = none := by
    unfold updateValidationError
    rw [strEmpty_eq_false_of_ne hid, if_neg (show ¬(false = true) from by simp)]
    decide
  have hpc : updatePrecheckConflict db ctx.orgId a.id none = false := rfl
  have hviol : updateWriteViolation db a.id ctx.orgId none = false := rfl
  have hmatch : rowMatches a.id ctx.orgId a = true := by
    unfold rowMatches
    rw [horg]
    simp
  have hallf : (db.assets.all fun b => !(rowMatches a.id ctx.orgId b)) = false := by
    cases hall : (db.assets.all fun b => !(rowMatches a.id ctx.orgId b)) with
    | false => rfl
    | true =>
      exfalso
      have := (List.all_eq_true.mp hall) a ha
      rw [hmatch] at this
      simp at this
  have hmap : (db.assets.map fun x =>
        if rowMatches a.id ctx.orgId x then applyUpdates none none (some "maintenance") x
        else x) =
      db.assets.map
        (fun x => if x.id == a.id then { x with status := "maintenance" } else x) := by
    apply List.map_congr_left
    intro x hx
    cases hxi : x.id == a.id with
    | false =>
      have : rowMatches a.id ctx.orgId x = false := by
        unfold rowMatches
        rw [hxi]
        simp
      rw [this]
      simp
    | true =>
      have hxa : x = a := List.inj_on_of_nodup_map hnd hx ha (eq_of_beq hxi)
      subst hxa
      rw [hmatch]
      simp [applyUpdates, truthy_none, truthy_maintenance]
  have hred : updateAsset db ctx a.id none none (some "maintenance") =
      (⟨200, .updated
          ((db.assets.map fun x =>
              if rowMatches a.id ctx.orgId x then
                applyUpdates none none (some "maintenance") x
              else x).find? fun b => b.id == a.id)
          (((db.assets.map fun x =>
              if rowMatches a.id ctx.orgId x then
                applyUpdates none none (some "maintenance") x
              else x).find? fun b => b.id == a.id).bind
            fun b => db.categories.find? fun c => c.id == b.categoryId)⟩,
       { db with assets := db.assets.map fun x =>
          if rowMatches a.id ctx.orgId x then
            applyUpdates none none (some "maintenance") x
          else x },
       [.assetUpdateMany a.id ctx.orgId, .assetFindUniqueById a.id]) := by
    unfold updateAsset
    rw [hval]
    simp only [hpc, hviol, hallf]
    simp [truthy_none]
  refine ⟨?_, ?_, ?_, ?_⟩
  · rw [hred]
  · rw [hred]
    exact hmap
  · rw [hred]
    simp only
    rw [hmap]
    rw [List.mem_map]
    refine ⟨a, ha, ?_⟩
    simp
  · intro x nm sn st
    refine ⟨rfl, rfl, rfl, ?_, ?_, ?_⟩
    · intro h
      unfold applyUpdates
      rw [h]
      simp
    · intro h
      unfold applyUpdates
      rw [h]
      simp
    · intro h
      unfold applyUpdates
      rw [h]
      simp

/-- C9 witness: the concrete status-only update on `dbW`. -/
theorem c9_partial_update_frame_witness :
    ((dbW.assets.map Asset.id).Nodup ∧
      (⟨"a1", "Laptop", "SN-1", "active", "org1", "cat1"⟩ : Asset) ∈ dbW.assets) ∧
    (updateAsset dbW ctxOrg1 "a1" none none (some "maintenance")).1.status = 200 ∧
    (updateAsset dbW ctxOrg1 "a1" none none (some "maintenance")).2.1.assets =
      [⟨"a1", "Laptop", "SN-1", "maintenance", "org1", "cat1"⟩] :=
  ⟨⟨by decide, by decide⟩,
   (c9_partial_update_frame dbW ctxOrg1 ⟨"a1", "Laptop", "SN-1", "active", "org1", "cat1"⟩
      (by decide) (by decide) (by decide) (by decide)).1,
   by decide⟩

/-! ### C6: token service lemmas -/

theorem natBits_length (w x : Nat) : (natBits w x).length = w := by
  induction w generalizing x with
  | zero => rfl
  | succ w ih => simp [natBits, ih]

theorem bitsNat_natBits (w x : Nat) : bitsNat (natBits w x) = x % 2 ^ w := by
  induction w generalizing x with
  | zero => simp [natBits, bitsNat, Nat.mod_one]
  | succ w ih =>
    have hcond : (cond (x % 2 == 1) 1 0 : Nat) = x % 2 := by
      rcases Nat.mod_two_eq_zero_or_one x with h | h <;> simp [h]
    calc bitsNat (natBits (w + 1) x)
        = cond (x % 2 == 1) 1 0 + 2 * bitsNat (natBits w (x / 2)) := rfl
      _ = x % 2 + 2 * (x / 2 % 2 ^ w) := by rw [hcond, ih]
      _ = x % (2 * 2 ^ w) := Nat.mod_mul.symm
      _ = x % 2 ^ (w + 1) := by rw [pow_succ, mul_comm]

theorem keystream_length (s n : Nat) : (keystream s n).length = n := by
  simp [keystream]

theorem keystream_succ (s n : Nat) :
    keystream s (n + 1) = s.testBit 0 :: keystream (s / 2) n := by
  unfold keystream
  rw [List.range_succ_eq_map, List.map_cons, List.map_map]
  congr 1
  apply List.map_congr_left
  intro i _
  exact Nat.testBit_succ s i

theorem signBits_cons (s : Nat) (b : Bool) (p : List Bool) :
    signBits s (b :: p) = xor b (s.testBit 0) :: signBits (s / 2) p := by
  unfold signBits
  rw [List.length_cons, keystream_succ, List.zipWith_cons_cons]

theorem signBits_length (s : Nat) (p : List Bool) :
    (signBits s p).length = p.length := by
  unfold signBits
  rw [List.length_zipWith, keystream_length]
  simp

theorem signBits_get? (s : Nat) (p : List Bool) (i : Nat) :
    (signBits s p).get? i = (p.get? i).map fun b => xor b (s.testBit i) := by
  induction p generalizing s i with
  | nil => simp [signBits, keystream]
  | cons b rest ih =>
    rw [signBits_cons]
    cases i with
    | zero => simp
    | succ i =>
      simp only [List.get?_cons_succ]
      rw [ih, Nat.testBit_succ]

theorem flipBit_length (l : List Bool) (i : Nat) : (flipBit l i).length = l.length := by
  induction l generalizing i with
  | nil => rfl
  | cons b bs ih =>
    cases i with
    | zero => rfl
    | succ i => simp [flipBit, ih]

theorem flipBit_append_left (l1 l2 : List Bool) (i : Nat) (h : i < l1.length) :
    flipBit (l1 ++ l2) i = flipBit l1 i ++ l2 := by
  induction l1 generalizing i with
  | nil => simp at h
  | cons b bs ih =>
    cases i with
    | zero => rfl
    | succ i =>
      simp only [List.cons_append, flipBit, List.append_eq]
      rw [ih i (Nat.lt_of_succ_lt_succ h)]

theorem flipBit_append_right (l1 l2 : List Bool) (i : Nat) (h : l1.length ≤ i) :
    flipBit (l1 ++ l2) i = l1 ++ flipBit l2 (i - l1.length) := by
  induction l1 generalizing i with
  | nil => simp
  | cons b bs ih =>
    cases i with
    | zero => exact absurd h (by simp)
    | succ i =>
      simp only [List.cons_append, flipBit, List.length_cons, List.append_eq]
      rw [ih i (Nat.le_of_succ_le_succ h), Nat.succ_sub_succ]

theorem flipBit_get? (l : List Bool) (i : Nat) (h : i < l.length) :
    (flipBit l i).get? i = (l.get? i).map Bool.not := by
  induction l generalizing i with
  | nil => simp at h
  | cons b bs ih =>
    cases i with
    | zero => rfl
    | succ i =>
      simp only [flipBit, List.get?_cons_succ]
      exact ih i (Nat.lt_of_succ_lt_succ h)

theorem flipBit_ne (l : List Bool) (i : Nat) (h : i < l.length) : flipBit l i ≠ l := by
  intro heq
  have h1 := flipBit_get? l i h
  have hsome := List.get?_eq_get h
  rw [heq, hsome] at h1
  simp at h1

theorem signBits_flip_ne (s : Nat) (p : List Bool) (i : Nat) (h : i < p.length) :
    signBits s (flipBit p i) ≠ signBits s p := by
  intro heq
  have h1 := signBits_get? s (flipBit p i) i
  rw [heq, signBits_get? s p i, flipBit_get? p i h, List.get?_eq_get h] at h1
  cases hg : p.get ⟨i, h⟩ <;> rw [hg] at h1 <;>
    cases hk : s.testBit i <;> rw [hk] at h1 <;> simp at h1

/-- Verification of an untampered issued token reduces to the expiry
test. -/
theorem verifyToken_issueToken (secret u o t now : Nat)
    (hu : u < 2 ^ tokenWidth) (ho : o < 2 ^ tokenWidth)
    (ht : t + expirySeconds < 2 ^ tokenWidth) :
    verifyToken secret now (issueToken secret u o t) =
      if now < t + expirySeconds then .valid u o else .invalid := by
  have hlenA := natBits_length tokenWidth u
  have hlenB := natBits_length tokenWidth o
  have hlenC := natBits_length tokenWidth (t + expirySeconds)
  have hplen : (natBits tokenWidth u ++ natBits tokenWidth o ++
      natBits tokenWidth (t + expirySeconds)).length = 3 * tokenWidth := by
    simp only [List.length_append, hlenA, hlenB, hlenC]
    ring
  have hablen : (natBits tokenWidth u ++ natBits tokenWidth o).length = 2 * tokenWidth := by
    simp only [List.length_append, hlenA, hlenB]
    ring
  unfold issueToken verifyToken
  simp only
  rw [List.length_append, hplen, signBits_length, hplen]
  rw [show (3 * tokenWidth + 3 * tokenWidth == 2 * (3 * tokenWidth)) = true by
    simp [Nat.two_mul]]
  rw [if_pos rfl]
  rw [List.take_left' hplen, List.drop_left' hplen, beq_self_eq_true, if_pos rfl]
  rw [List.drop_left' hablen]
  rw [List.append_assoc, List.take_left' hlenA, List.drop_left' hlenA,
    List.take_left' hlenB]
  rw [bitsNat_natBits, bitsNat_natBits, bitsNat_natBits,
    Nat.mod_eq_of_lt hu, Nat.mod_eq_of_lt ho, Nat.mod_eq_of_lt ht]

/-- C6: before the 24-hour expiry, verifying an issued token yields exactly
the embedded `{userId, orgId}`; at or after expiry, or for any single-bit
mutation of the token, verification yields `invalid`. -/
theorem c6_token_roundtrip (secret u o t now : Nat)
    (hu : u < 2 ^ tokenWidth) (ho : o < 2 ^ tokenWidth)
    (ht : t + expirySeconds < 2 ^ tokenWidth) :
    (now < t + expirySeconds →
      verifyToken secret now (issueToken secret u o t) = .valid u o) ∧
    (t + expirySeconds ≤ now →
      verifyToken secret now (issueToken secret u o t) = .invalid) ∧
    (∀ i < (issueToken secret u o t).length,
      verifyToken secret now (flipBit (issueToken secret u o t) i) = .invalid) := by
  have hplen : (natBits tokenWidth u ++ natBits tokenWidth o ++
      natBits tokenWidth (t + expirySeconds)).length = 3 * tokenWidth := by
    simp only [List.length_append, natBits_length]
    ring
  refine ⟨?_, ?_, ?_⟩
  · intro hnow
    rw [verifyToken_issueToken secret u o t now hu ho ht, if_pos hnow]
  · intro hnow
    rw [verifyToken_issueToken secret u o t now hu ho ht,
      if_neg (Nat.not_lt.mpr hnow)]
  · intro i hi
    have hslen : (signBits secret (natBits tokenWidth u ++ natBits tokenWidth o ++
        natBits tokenWidth (t + expirySeconds))).length = 3 * tokenWidth := by
      rw [signBits_length, hplen]
    have htok : (issueToken secret u o t).length = 3 * tokenWidth + 3 * tokenWidth := by
      unfold issueToken
      simp only
      rw [List.length_append, hplen, hslen]
    rw [htok] at hi
    unfold issueToken
    simp only
    by_cases hcase : i < 3 * tokenWidth
    · rw [flipBit_append_left _ _ i (by rw [hplen]; exact hcase)]
      unfold verifyToken
      have hflen : (flipBit (natBits tokenWidth u ++ natBits tokenWidth o ++
          natBits tokenWidth (t + expirySeconds)) i).length = 3 * tokenWidth := by
        rw [flipBit_length, hplen]
      rw [List.length_append, hflen, hslen]
      rw [show (3 * tokenWidth + 3 * tokenWidth == 2 * (3 * tokenWidth)) = true by
        simp [Nat.two_mul]]
      rw [if_pos rfl]
      rw [List.take_left' hflen, List.drop_left' hflen]
      rw [beq_eq_false_iff_ne.mpr
        (Ne.symm (signBits_flip_ne secret _ i (by rw [hplen]; exact hcase)))]
      simp
    · have hge : (natBits tokenWidth u ++ natBits tokenWidth o ++
          natBits tokenWidth (t + expirySeconds)).length ≤ i := by
        rw [hplen]
        exact Nat.not_lt.mp hcase
      have hjj : i - 3 * tokenWidth < 3 * tokenWidth :=
        Nat.sub_lt_left_of_lt_add (Nat.not_lt.mp hcase) hi
      rw [flipBit_append_right _ _ i hge]
      unfold verifyToken
      rw [List.length_append, hplen]
      have hfslen : (flipBit (signBits secret (natBits tokenWidth u ++
          natBits tokenWidth o ++ natBits tokenWidth (t + expirySeconds)))
          (i - 3 * tokenWidth)).length = 3 * tokenWidth := by
        rw [flipBit_length, hslen]
      rw [hfslen]
      rw [show (3 * tokenWidth + 3 * tokenWidth == 2 * (3 * tokenWidth)) = true by
        simp [Nat.two_mul]]
      rw [if_pos rfl]
      rw [List.take_left' hplen, List.drop_left' hplen]
      rw [beq_eq_false_iff_ne.mpr (flipBit_ne _ _ (by rw [hslen]; exact hjj))]
      simp

/-- C6 witness: a concrete issue/verify roundtrip with the bounds
discharged, plus a fully evaluated valid verification. -/
theorem c6_token_roundtrip_witness :
    ((3 : Nat) < 2 ^ tokenWidth ∧ (5 : Nat) < 2 ^ tokenWidth ∧
      (7 : Nat) + expirySeconds < 2 ^ tokenWidth) ∧
    ((8 < 7 + expirySeconds →
      verifyToken 11 8 (issueToken 11 3 5 7) = .valid 3 5) ∧
    (7 + expirySeconds ≤ 8 →
      verifyToken 11 8 (issueToken 11 3 5 7) = .invalid) ∧
    (∀ i < (issueToken 11 3 5 7).length,
      verifyToken 11 8 (flipBit (issueToken 11 3 5 7) i) = .invalid)) :=
  ⟨⟨by decide, by decide, by decide⟩,
   c6_token_roundtrip 11 3 5 7 8 (by decide) (by decide) (by decide)⟩

end AssetManager
